import Mathlib

/-!
The cgo wrapper layer of posix_mq (`wrapper.go`).

A shallow embedding of `wrapper.go` and the properties of it that the
specification states.

Platform: linux/amd64 (LP64).  Go `int` and `uint` are 64 bits wide, C `int`,
`unsigned int` and `mqd_t` are 32 bits wide, C `long`, `ssize_t` and `size_t`
are 64 bits wide.  Every Go or C conversion `T(x)` is written out as the
wrap-around it performs.

The native side (libc and the kernel) is a parameter: a `Native σ` answers each
native call from a state of type `σ`.  A wrapper function is a function on a
`World σ`, which holds that state, the C heap, and the trace of native calls
issued so far.
-/

namespace PosixMq

/-! ## Machine integers -/

/-- Conversion to a signed two's complement integer of `w` bits. -/
def wrapSigned (w : Nat) (x : Int) : Int :=
  (x + 2 ^ (w - 1)) % 2 ^ w - 2 ^ (w - 1)

/-- Conversion of a signed value to an unsigned integer of `w` bits. -/
def wrapUnsigned (w : Nat) (x : Int) : Nat :=
  (x % 2 ^ w).toNat

/-- The conversion `C.int(x)` of a Go integer. -/
def C.int (x : Int) : Int := wrapSigned 32 x

/-- The conversion `C.long(x)` of a Go integer. -/
def C.long (x : Int) : Int := wrapSigned 64 x

/-- The conversion `C.uint(x)` of a Go `uint`. -/
def C.uint (x : Nat) : Nat := x % 2 ^ 32

/-- The conversion `C.size_t(x)` of a Go `int`. -/
def C.size_t (x : Int) : Nat := wrapUnsigned 64 x

/-- The conversion `int(x)` of a C integer to Go `int`. -/
def goInt (x : Int) : Int := wrapSigned 64 x

/-- The conversion `uint(x)` of a C `unsigned int` to Go `uint`. -/
def goUint (x : Nat) : Nat := x % 2 ^ 64

/-- Go's `%` on integers: the remainder of the division truncated toward zero. -/
def goRem (a b : Int) : Int := Int.tmod a b

/-- The values of Go `int` (and of C `long`). -/
def fitsInt64 (x : Int) : Prop := -(2 : Int) ^ 63 ≤ x ∧ x < 2 ^ 63

instance (x : Int) : Decidable (fitsInt64 x) := by
  unfold fitsInt64; exact inferInstance

/-- The values of C `int`. -/
def fitsInt32 (x : Int) : Prop := -(2 : Int) ^ 31 ≤ x ∧ x < 2 ^ 31

instance (x : Int) : Decidable (fitsInt32 x) := by
  unfold fitsInt32; exact inferInstance

/-! ## Data -/

/-- A byte. -/
abbrev Byte := Fin 256

/-- `MSGSIZE_MAX = 16777216` ("Based on Linux 3.5+"). -/
def MSGSIZE_MAX : Nat := 16777216

/-- `MSGSIZE_DEFAULT = MSGSIZE_MAX`. -/
def MSGSIZE_DEFAULT : Nat := MSGSIZE_MAX

/-- Go `error` values the wrapper can return; `nil` is `none` of `Option GoError`. -/
inductive GoError where
  /-- The value `syscall.Errno(code)` that cgo builds from a nonzero `errno`. -/
  | Errno (code : Nat)
  /-- The package variable `MemoryAllocationError`. -/
  | MemoryAllocationError
  deriving DecidableEq, Repr

/-- C `struct timespec`. -/
structure timespec where
  tv_sec : Int
  tv_nsec : Int
  deriving DecidableEq, Repr

/-- C `struct mq_attr`. -/
structure mq_attr where
  mq_flags : Int
  mq_maxmsg : Int
  mq_msgsize : Int
  mq_curmsgs : Int
  deriving DecidableEq, Repr

/-- C `struct sigevent`, the two members the wrapper sets. -/
structure sigevent where
  sigev_notify : Int
  sigev_signo : Int
  deriving DecidableEq, Repr

/-- The constant `SIGEV_SIGNAL` of `<signal.h>` on Linux. -/
def SIGEV_SIGNAL : Int := 0

/-- Modelled from the spec: the type `MessageQueueAttribute`, declared outside
`wrapper.go`.  The spec gives QueueAttributes as
`{ flags: int, maxMessages: int, maxMessageSize: int, currentMessageCount: int }`;
the field names are the ones `wrapper.go` uses. -/
structure MessageQueueAttribute where
  Flags : Int
  MaxMsg : Int
  MsgSize : Int
  MsgCnt : Int
  deriving DecidableEq, Repr

/-- The Go struct `receiveBuffer`: a pointer into the C heap and a `size_t`. -/
structure receiveBuffer where
  buf : Nat
  size : Nat
  deriving DecidableEq, Repr

/-- Go `time.Time` as `timeToTimespec` observes it: an instant, given by its
distance from the Unix epoch in nanoseconds (negative before the epoch). -/
structure Time where
  unixNano : Int
  deriving DecidableEq, Repr

/-- The method `t.Unix()`: whole seconds elapsed since the epoch, rounded down. -/
def Time.Unix (t : Time) : Int := t.unixNano / 1000000000

/-- The method `t.Nanosecond()`: the offset within the second, in `[0, 999999999]`. -/
def Time.Nanosecond (t : Time) : Int := t.unixNano % 1000000000

/-- The instants whose `Unix()` is a value of `int64`. -/
def Time.inRange (t : Time) : Prop := fitsInt64 t.Unix

instance (t : Time) : Decidable t.inRange := by
  unfold Time.inRange; exact inferInstance

/-! ## The native side -/

/-- A native call with the arguments it is given.  A `char *` argument that
points to a C string is recorded as the bytes of that string's block; a buffer
argument that the call fills is recorded as its address.  The calls are the
queue calls and the `malloc` and `free` of a receive buffer; the temporary C
string of a name or a message (`C.CString`, released by `defer C.free` when
the wrapper returns) is passed by value and leaves no call behind. -/
inductive Call where
  | malloc (size : Nat)
  | free (ptr : Nat)
  | mq_open4 (name : List Byte) (oflag mode : Int) (attr : Option mq_attr)
  | mq_send (h : Int) (msg : List Byte) (len : Nat) (prio : Nat)
  | mq_timedsend (h : Int) (msg : List Byte) (len : Nat) (prio : Nat) (ts : timespec)
  | mq_receive (h : Int) (buf : Nat) (size : Nat)
  | mq_timedreceive (h : Int) (buf : Nat) (size : Nat) (ts : timespec)
  | mq_notify (h : Int) (ev : sigevent)
  | mq_close (h : Int)
  | mq_unlink (name : List Byte)
  | mq_getattr (h : Int)
  deriving DecidableEq, Repr

/-- What a native call leaves behind: its return value, the value of `errno`
after it (cgo clears `errno` before the call), and what it stored through its
output pointers. -/
structure Reply where
  /-- The integer return value (`int`, `mqd_t` or `ssize_t`). -/
  rv : Int
  /-- The value of `errno` after the call. -/
  errno : Nat
  /-- The pointer `malloc` returns; `0` is `NULL`. -/
  ptr : Nat
  /-- The bytes stored at the buffer argument. -/
  data : List Byte
  /-- The value stored through the `unsigned int *` priority argument. -/
  prio : Nat
  /-- The structure stored through the `struct mq_attr *` argument. -/
  attr : mq_attr

/-- The native side: how a call is answered from a state, and the state after. -/
abbrev Native (σ : Type) := Call → σ → Reply × σ

/-- The C heap, byte addressed. -/
abbrev Mem := Nat → Byte

/-- The bytes `bs` stored at address `p`. -/
def Mem.store (mem : Mem) (p : Nat) (bs : List Byte) : Mem :=
  fun a => if h : p ≤ a ∧ a - p < bs.length then bs.get ⟨a - p, h.2⟩ else mem a

/-- The `n` bytes at address `p`. -/
def Mem.load (mem : Mem) (p : Nat) (n : Nat) : List Byte :=
  (List.range n).map (fun i => mem (p + i))

/-- The world a wrapper function runs in. -/
structure World (σ : Type) where
  /-- The state of the native side. -/
  kernel : σ
  /-- The C heap. -/
  mem : Mem
  /-- The native calls issued so far, oldest first. -/
  trace : List Call

/-- One native call: it is answered by the native side, is appended to the
trace, and a receive call stores the bytes of its answer at its buffer. -/
def invoke {σ : Type} (N : Native σ) (c : Call) (w : World σ) : Reply × World σ :=
  let r := N c w.kernel
  (r.1,
   { kernel := r.2,
     mem := match c with
       | .mq_receive _ buf _ => w.mem.store buf r.1.data
       | .mq_timedreceive _ buf _ _ => w.mem.store buf r.1.data
       | _ => w.mem,
     trace := w.trace ++ [c] })

/-- The answer of the native side to the call `c` issued in the world `w`. -/
def answer {σ : Type} (N : Native σ) (c : Call) (w : World σ) : Reply :=
  (N c w.kernel).1

/-- The error of cgo's two-result call form `rv, err := C.f(...)`: `nil` when
`errno` is zero after the call, and `syscall.Errno(errno)` otherwise. -/
def cgoErr (errno : Nat) : Option GoError :=
  if errno = 0 then none else some (GoError.Errno errno)

/-- `C.CString(s)`: a fresh block holding the bytes of `s`, zero bytes
included, and one terminating zero byte.  The Go runtime aborts the process
when this allocation fails, so the call either yields the block or does not
return. -/
def C.CString (s : List Byte) : List Byte := s ++ [0]

/-- `C.GoBytes(p, n)`: a Go slice holding a copy of the `n` bytes at `p`; the
runtime panics (`none`) when `n` is negative. -/
def C.GoBytes (mem : Mem) (p : Nat) (n : Int) : Option (List Byte) :=
  if n < 0 then none else some (mem.load p n.toNat)

/-! ## wrapper.go -/

/-- `C.malloc(n)` as cgo compiles it: not the native `malloc` itself but a
helper around it that never returns a nil pointer.  The helper calls
`malloc(n)`, calls `malloc(1)` when `n` is zero and the answer was `NULL`, and
when the block is still `NULL` the Go runtime aborts the process
(`fatal error: runtime: C malloc failed`): the result is then `none`, no
statement after the call runs. -/
def C.malloc {σ : Type} (N : Native σ) (n : Nat) (w : World σ) : Option Nat × World σ :=
  let r := invoke N (.malloc n) w
  let r1 := if r.1.ptr = 0 ∧ n = 0 then invoke N (.malloc 1) r.2 else r
  if r1.1.ptr = 0 then (none, r1.2) else (some r1.1.ptr, r1.2)

/-- `newReceiveBuffer(bufSize)`.  The result is `none` when the process is
aborted inside `C.malloc`; a `nil` buffer pointer is `none` of
`Option receiveBuffer`. -/
def newReceiveBuffer {σ : Type} (N : Native σ) (bufSize : Int) (w : World σ) :
    Option (Option receiveBuffer × Option GoError) × World σ :=
  let m := C.malloc N (C.size_t bufSize) w
  match m.1 with
  | none => (none, m.2)
  | some buf =>
    if buf = 0 then
      (some (none, some GoError.MemoryAllocationError), m.2)
    else
      (some (some { buf := buf, size := C.size_t bufSize }, none), m.2)

/-- `(rb *receiveBuffer) free()`. -/
def receiveBuffer.free {σ : Type} (N : Native σ) (rb : receiveBuffer) (w : World σ) :
    World σ :=
  (invoke N (.free rb.buf) w).2

/-- `timeToTimespec(t)`. -/
def timeToTimespec (t : Time) : timespec :=
  { tv_sec := C.long t.Unix,
    tv_nsec := C.long (goRem t.Nanosecond 1000000000) }

/-- The first statement of `mq_open`: the `cAttr` pointer it builds from `attr`
(`var cAttr *C.struct_mq_attr; if attr != nil { cAttr = &C.struct_mq_attr{...} }`).
A `nil` pointer is `none`. -/
def mq_open.cAttr (attr : Option MessageQueueAttribute) : Option mq_attr :=
  match attr with
  | some a =>
    some { mq_flags := C.long a.Flags,
           mq_maxmsg := C.long a.MaxMsg,
           mq_msgsize := C.long a.MsgSize,
           mq_curmsgs := C.long a.MsgCnt }
  | none => none

/-- `mq_open(name, oflag, mode, attr)`; a `nil` attribute pointer is `none`. -/
def mq_open {σ : Type} (N : Native σ) (name : List Byte) (oflag mode : Int)
    (attr : Option MessageQueueAttribute) (w : World σ) :
    (Int × Option GoError) × World σ :=
  let cAttr : Option mq_attr := mq_open.cAttr attr
  let cName := C.CString name
  let r := invoke N (.mq_open4 cName (C.int oflag) (C.int mode) cAttr) w
  let h := r.1.rv
  let err := cgoErr r.1.errno
  if h = -1 then
    ((0, err), r.2)
  else
    ((goInt h, none), r.2)

/-- `mq_send(h, data, priority)`. -/
def mq_send {σ : Type} (N : Native σ) (h : Int) (data : List Byte) (priority : Nat)
    (w : World σ) : Option GoError × World σ :=
  let byteStr := data
  let cStr := C.CString byteStr
  let r := invoke N (.mq_send (C.int h) cStr (C.size_t data.length) (C.uint priority)) w
  let rv := r.1.rv
  let err := cgoErr r.1.errno
  if rv = -1 then
    (err, r.2)
  else
    (none, r.2)

/-- `mq_timedsend(h, data, priority, t)`. -/
def mq_timedsend {σ : Type} (N : Native σ) (h : Int) (data : List Byte) (priority : Nat)
    (t : Time) (w : World σ) : Option GoError × World σ :=
  let timeSpec := timeToTimespec t
  let byteStr := data
  let cStr := C.CString byteStr
  let r := invoke N
    (.mq_timedsend (C.int h) cStr (C.size_t data.length) (C.uint priority) timeSpec) w
  let rv := r.1.rv
  let err := cgoErr r.1.errno
  if rv = -1 then
    (err, r.2)
  else
    (none, r.2)

/-- `mq_receive(h, recvBuf)`.  The result is `none` when `C.GoBytes` panics. -/
def mq_receive {σ : Type} (N : Native σ) (h : Int) (recvBuf : receiveBuffer)
    (w : World σ) : Option (List Byte × Nat × Option GoError) × World σ :=
  let r := invoke N (.mq_receive (C.int h) recvBuf.buf recvBuf.size) w
  let msgPrio := C.uint r.1.prio
  let size := r.1.rv
  let err := cgoErr r.1.errno
  if size = -1 then
    (some ([], 0, err), r.2)
  else
    ((C.GoBytes r.2.mem recvBuf.buf (C.int size)).map
        (fun bytes => (bytes, goUint msgPrio, none)),
     r.2)

/-- `mq_timedreceive(h, recvBuf, t)`.  The result is `none` when `C.GoBytes`
panics. -/
def mq_timedreceive {σ : Type} (N : Native σ) (h : Int) (recvBuf : receiveBuffer)
    (t : Time) (w : World σ) : Option (List Byte × Nat × Option GoError) × World σ :=
  let timeSpec := timeToTimespec t
  let r := invoke N (.mq_timedreceive (C.int h) recvBuf.buf recvBuf.size timeSpec) w
  let msgPrio := C.uint r.1.prio
  let size := r.1.rv
  let err := cgoErr r.1.errno
  if size = -1 then
    (some ([], 0, err), r.2)
  else
    ((C.GoBytes r.2.mem recvBuf.buf (C.int size)).map
        (fun bytes => (bytes, goUint msgPrio, none)),
     r.2)

/-- `mq_notify(h, sigNo)`. -/
def mq_notify {σ : Type} (N : Native σ) (h : Int) (sigNo : Int) (w : World σ) :
    Option GoError × World σ :=
  let sigEvent : sigevent :=
    { sigev_notify := SIGEV_SIGNAL,
      sigev_signo := C.int sigNo }
  let r := invoke N (.mq_notify (C.int h) sigEvent) w
  let rv := r.1.rv
  let err := cgoErr r.1.errno
  if rv = -1 then
    (err, r.2)
  else
    (none, r.2)

/-- `mq_close(h)`. -/
def mq_close {σ : Type} (N : Native σ) (h : Int) (w : World σ) :
    Option GoError × World σ :=
  let r := invoke N (.mq_close (C.int h)) w
  let rv := r.1.rv
  let err := cgoErr r.1.errno
  if rv = -1 then
    (err, r.2)
  else
    (none, r.2)

/-- `mq_unlink(name)`. -/
def mq_unlink {σ : Type} (N : Native σ) (name : List Byte) (w : World σ) :
    Option GoError × World σ :=
  let cStr := C.CString name
  let r := invoke N (.mq_unlink cStr) w
  let rv := r.1.rv
  let err := cgoErr r.1.errno
  if rv = -1 then
    (err, r.2)
  else
    (none, r.2)

/-- `mq_getattr(h)`; a `nil` result pointer is `none`. -/
def mq_getattr {σ : Type} (N : Native σ) (h : Int) (w : World σ) :
    (Option MessageQueueAttribute × Option GoError) × World σ :=
  let r := invoke N (.mq_getattr (C.int h)) w
  let cAttr := r.1.attr
  let rv := r.1.rv
  let err := cgoErr r.1.errno
  if rv = -1 then
    ((none, err), r.2)
  else
    let mqa : MessageQueueAttribute :=
      { Flags := goInt cAttr.mq_flags,
        MaxMsg := goInt cAttr.mq_maxmsg,
        MsgSize := goInt cAttr.mq_msgsize,
        MsgCnt := goInt cAttr.mq_curmsgs }
    ((some mqa, none), r.2)

/-! ## A reference queue

The native side of one open message queue descriptor, after POSIX
`mq_overview(7)` as Linux implements it: messages leave in descending priority
and, within one priority, in the order they arrived.  The descriptor is
non-blocking, so a call that would wait fails with `EAGAIN`.  It is the
environment against which the send and receive round trip is stated; only
`mq_send` and `mq_receive` belong to this fragment. -/

/-- Linux `errno` values. -/
def EBADF : Nat := 9
/-- Linux `errno` value. -/
def EAGAIN : Nat := 11
/-- Linux `errno` value. -/
def EINVAL : Nat := 22
/-- Linux `errno` value. -/
def ENOSYS : Nat := 38
/-- Linux `errno` value. -/
def EMSGSIZE : Nat := 90

/-- The kernel object behind one open descriptor. -/
structure MQueue where
  /-- The descriptor `mq_open` returned for it. -/
  fd : Int
  /-- The attribute `mq_maxmsg`. -/
  maxmsg : Nat
  /-- The attribute `mq_msgsize`. -/
  msgsize : Nat
  /-- The limit `MQ_PRIO_MAX`: priorities are below it. -/
  prioMax : Nat
  /-- The queued messages, next to be received first. -/
  msgs : List (Nat × List Byte)

/-- The states of a queue the kernel can be in: the descriptor is a C `int`,
the queue has room for at least one message, and `mq_msgsize` is within the ceiling
`MSGSIZE_MAX` that the kernel enforces when the queue is created. -/
def MQueue.valid (q : MQueue) : Prop :=
  fitsInt32 q.fd ∧ 0 < q.maxmsg ∧ q.msgsize ≤ MSGSIZE_MAX

instance (q : MQueue) : Decidable q.valid := by
  unfold MQueue.valid; exact inferInstance

/-- A failed call: the sentinel `-1` and an `errno`. -/
def Reply.fail (e : Nat) : Reply :=
  { rv := -1, errno := e, ptr := 0, data := [], prio := 0, attr := ⟨0, 0, 0, 0⟩ }

/-- A message of priority `p` enters the queue behind every message of
priority `p` or higher. -/
def enqueue (p : Nat) (m : List Byte) : List (Nat × List Byte) → List (Nat × List Byte)
  | [] => [(p, m)]
  | (q, x) :: rest =>
    if q < p then (p, m) :: (q, x) :: rest else (q, x) :: enqueue p m rest

/-- The reference queue as a native side. -/
def linuxQueue : Native MQueue := fun c q =>
  match c with
  | .mq_send h msg len prio =>
    if q.prioMax ≤ prio then (Reply.fail EINVAL, q)
    else if h ≠ q.fd then (Reply.fail EBADF, q)
    else if q.msgsize < len then (Reply.fail EMSGSIZE, q)
    else if q.maxmsg ≤ q.msgs.length then (Reply.fail EAGAIN, q)
    else
      ({ rv := 0, errno := 0, ptr := 0, data := [], prio := 0, attr := ⟨0, 0, 0, 0⟩ },
       { q with msgs := enqueue prio (msg.take len) q.msgs })
  | .mq_receive h _ size =>
    if h ≠ q.fd then (Reply.fail EBADF, q)
    else if size < q.msgsize then (Reply.fail EMSGSIZE, q)
    else
      match q.msgs with
      | [] => (Reply.fail EAGAIN, q)
      | (p, m) :: rest =>
        ({ rv := m.length, errno := 0, ptr := 0, data := m, prio := p,
           attr := ⟨0, 0, 0, 0⟩ },
         { q with msgs := rest })
  | _ => (Reply.fail ENOSYS, q)

/-- How the error `err` a wrapper returns follows from the answer `r` of its
native call: the sentinel `-1` with a nonzero `errno` gives `syscall.Errno(errno)`,
the sentinel with `errno` zero gives `nil`, any other return value gives `nil`. -/
def SentinelMapped (r : Reply) (err : Option GoError) : Prop :=
  (r.rv = -1 → r.errno ≠ 0 → err = some (GoError.Errno r.errno)) ∧
  (r.rv = -1 → r.errno = 0 → err = none) ∧
  (r.rv ≠ -1 → err = none)

/-- The same for a receive wrapper, whose result `res` is `none` when
`C.GoBytes` panics: it returns, with the error as in `SentinelMapped`, on the
sentinel and on every return value that is a non-negative C `int`. -/
def SentinelMappedRecv (r : Reply) (res : Option (List Byte × Nat × Option GoError)) :
    Prop :=
  (r.rv = -1 → r.errno ≠ 0 → res = some ([], 0, some (GoError.Errno r.errno))) ∧
  (r.rv = -1 → r.errno = 0 → res = some ([], 0, none)) ∧
  (r.rv ≠ -1 → 0 ≤ C.int r.rv → res.map (fun x => x.2.2) = some none)

/-- A native side that answers every call with the return value `rv` and the
`errno` value `e`, and stores nothing. -/
def constNative (rv : Int) (e : Nat) : Native Unit := fun _ s =>
  ({ rv := rv, errno := e, ptr := 0, data := [], prio := 0, attr := ⟨0, 0, 0, 0⟩ }, s)

/-- A native side that answers every call with success: return value `0`,
`errno` zero, the pointer `p` from `malloc`, and the structure `c` from
`mq_getattr`. -/
def okNative (p : Nat) (c : mq_attr) : Native Unit := fun _ s =>
  ({ rv := 0, errno := 0, ptr := p, data := [], prio := 0, attr := c }, s)

/-- Linux `errno` value. -/
def ENOENT : Nat := 2

/-- Linux `errno` value. -/
def ENOMEM : Nat := 12

/-- The bytes of the queue name `"/q"`. -/
def qName : List Byte := [47, 113]

/-- A native `mq_open` that does not read `mq_curmsgs`: creation attributes
that agree on the other three members are answered alike. -/
def IgnoresCurmsgs {σ : Type} (N : Native σ) : Prop :=
  ∀ (name : List Byte) (oflag mode : Int) (c c' : mq_attr) (k : σ),
    c.mq_flags = c'.mq_flags → c.mq_maxmsg = c'.mq_maxmsg → c.mq_msgsize = c'.mq_msgsize →
    N (.mq_open4 name oflag mode (some c)) k = N (.mq_open4 name oflag mode (some c')) k

/-- The world after `k` successive calls of `rb.free()`. -/
def freeTimes {σ : Type} (N : Native σ) (rb : receiveBuffer) : Nat → World σ → World σ
  | 0, w => w
  | k + 1, w => freeTimes N rb k (rb.free N w)

/-- The attributes of a queue configured with `maxMessages = 10` and
`maxMessageSize = 128`. -/
def testAttr : MessageQueueAttribute :=
  { Flags := 0, MaxMsg := 10, MsgSize := 128, MsgCnt := 0 }

/-- The attributes `testAttr` with a `MsgCnt` of `5`. -/
def testAttrCnt : MessageQueueAttribute :=
  { Flags := 0, MaxMsg := 10, MsgSize := 128, MsgCnt := 5 }

/-- The kernel structure for `testAttr`. -/
def testCAttr : mq_attr :=
  { mq_flags := 0, mq_maxmsg := 10, mq_msgsize := 128, mq_curmsgs := 0 }

/-- A world with a zeroed heap and no call issued yet. -/
def emptyWorld : World Unit :=
  { kernel := (), mem := fun _ => 0, trace := [] }

/-- The bytes of `"ping"`. -/
def ping : List Byte := [112, 105, 110, 103]

/-- An empty queue created with `maxMessages = 10` and `maxMessageSize = 128`,
open on descriptor `3`, under the Linux priority limit `32768`. -/
def testQueue : MQueue :=
  { fd := 3, maxmsg := 10, msgsize := 128, prioMax := 32768, msgs := [] }

/-- A world around `testQueue` with a zeroed heap and no call issued yet. -/
def testWorld : World MQueue :=
  { kernel := testQueue, mem := fun _ => 0, trace := [] }

/-- A receive buffer of `128` bytes at address `4096`. -/
def testBuffer : receiveBuffer := { buf := 4096, size := 128 }

/-! ## Conversions that lose nothing -/

theorem C.int_of_fits (x : Int) (h : fitsInt32 x) : C.int x = x := by
  unfold fitsInt32 at h
  unfold C.int wrapSigned
  norm_num at h ⊢
  omega

theorem C.long_of_fits (x : Int) (h : fitsInt64 x) : C.long x = x := by
  unfold fitsInt64 at h
  unfold C.long wrapSigned
  norm_num at h ⊢
  omega

theorem goInt_of_fits (x : Int) (h : fitsInt64 x) : goInt x = x := by
  unfold fitsInt64 at h
  unfold goInt wrapSigned
  norm_num at h ⊢
  omega

theorem C.size_t_of_nat (n : Nat) (h : n < 2 ^ 64) : C.size_t (n : Int) = n := by
  unfold C.size_t wrapUnsigned
  norm_num at h ⊢
  omega

theorem C.uint_of_lt (p : Nat) (h : p < 2 ^ 32) : C.uint p = p := by
  unfold C.uint
  exact Nat.mod_eq_of_lt h

theorem goUint_of_lt (p : Nat) (h : p < 2 ^ 64) : goUint p = p := by
  unfold goUint
  exact Nat.mod_eq_of_lt h

/-! ## The heap and C strings -/

theorem Mem.load_store (mem : Mem) (p : Nat) (bs : List Byte) :
    (mem.store p bs).load p bs.length = bs := by
  apply List.ext_get
  · simp [Mem.load]
  · intro i h1 h2
    simp [Mem.load, Mem.store, h2]

theorem C.CString_take (s : List Byte) : (C.CString s).take s.length = s := by
  simp [C.CString]

/-! ## C1: send and receive round trip -/

theorem mq_send_linuxQueue_ok (q : MQueue) (mem : Mem) (trace : List Call)
    (m : List Byte) (p : Nat)
    (hfull : q.msgs.length < q.maxmsg) (hfd : fitsInt32 q.fd)
    (hceil : q.msgsize ≤ MSGSIZE_MAX) (hlen : m.length ≤ q.msgsize)
    (hp32 : p < 2 ^ 32) (hprio : p < q.prioMax) :
    mq_send linuxQueue q.fd m p { kernel := q, mem := mem, trace := trace } =
      (none,
       { kernel := { q with msgs := enqueue p m q.msgs },
         mem := mem,
         trace := trace ++ [Call.mq_send q.fd (C.CString m) m.length p] }) := by
  have h64 : m.length < 2 ^ 64 := by
    unfold MSGSIZE_MAX at hceil
    norm_num
    omega
  simp only [mq_send, invoke, C.int_of_fits _ hfd, C.size_t_of_nat _ h64,
    C.uint_of_lt _ hp32, linuxQueue]
  simp [Nat.not_le.mpr hprio, Nat.not_lt.mpr hlen, Nat.not_le.mpr hfull, C.CString_take]

theorem mq_receive_linuxQueue_ok (q : MQueue) (mem : Mem) (trace : List Call)
    (rb : receiveBuffer) (m : List Byte) (p : Nat) (rest : List (Nat × List Byte))
    (hmsgs : q.msgs = (p, m) :: rest) (hfd : fitsInt32 q.fd)
    (hcap : q.msgsize ≤ rb.size) (hlen : m.length < 2 ^ 31) (hp32 : p < 2 ^ 32) :
    mq_receive linuxQueue q.fd rb { kernel := q, mem := mem, trace := trace } =
      (some (m, p, none),
       { kernel := { q with msgs := rest },
         mem := mem.store rb.buf m,
         trace := trace ++ [Call.mq_receive q.fd rb.buf rb.size] }) := by
  have hint : C.int (m.length : Int) = m.length := by
    apply C.int_of_fits
    unfold fitsInt32
    norm_num at hlen ⊢
    omega
  have hne : ((m.length : Int) = -1) = False := by
    apply eq_false
    omega
  have hnn : ¬ ((m.length : Int) < 0) := by omega
  have hp64 : p < 2 ^ 64 := by
    norm_num at hp32 ⊢
    omega
  simp only [mq_receive, invoke, C.int_of_fits _ hfd, linuxQueue, hmsgs]
  simp [Nat.not_lt.mpr hcap, hint, hne, C.GoBytes, hnn, Mem.load_store,
    C.uint_of_lt _ hp32, goUint_of_lt _ hp64]

/-- C1 (as amended): on the reference queue, in a valid state (so with
`maxMessageSize` within the kernel ceiling `MSGSIZE_MAX`) and empty, for every
byte sequence `m` with `len(m) <= maxMessageSize`, every receive buffer of
capacity at least `maxMessageSize`, and every priority `p` below `2^32` that
the queue accepts, `mq_send(h, m, p)` returns a nil error and hands the kernel
the `len(m)` bytes of `m` with priority `p`, and the following
`mq_receive(h, buf)` returns `(m, p)` with a nil error, its bytes being the
first `len(m)` bytes of the buffer. -/
theorem c1_send_receive_roundtrip (q : MQueue) (mem : Mem) (trace : List Call)
    (rb : receiveBuffer) (m : List Byte) (p : Nat)
    (hq : q.valid) (hempty : q.msgs = []) (hlen : m.length ≤ q.msgsize)
    (hcap : q.msgsize ≤ rb.size) (hp32 : p < 2 ^ 32) (hprio : p < q.prioMax) :
    (mq_send linuxQueue q.fd m p { kernel := q, mem := mem, trace := trace }).1 = none ∧
    (mq_send linuxQueue q.fd m p { kernel := q, mem := mem, trace := trace }).2.trace =
      trace ++ [Call.mq_send q.fd (C.CString m) m.length p] ∧
    (C.CString m).take m.length = m ∧
    (mq_receive linuxQueue q.fd rb
      (mq_send linuxQueue q.fd m p { kernel := q, mem := mem, trace := trace }).2).1 =
      some (m, p, none) ∧
    (mq_receive linuxQueue q.fd rb
      (mq_send linuxQueue q.fd m p { kernel := q, mem := mem, trace := trace }).2).2.mem.load
        rb.buf m.length = m := by
  obtain ⟨hfd, hroom, hceil⟩ := hq
  have hfull : q.msgs.length < q.maxmsg := by simpa [hempty] using hroom
  have h31 : m.length < 2 ^ 31 := by
    unfold MSGSIZE_MAX at hceil
    norm_num
    omega
  rw [mq_send_linuxQueue_ok q mem trace m p hfull hfd hceil hlen hp32 hprio]
  have hrecv := mq_receive_linuxQueue_ok { q with msgs := enqueue p m q.msgs } mem
    (trace ++ [Call.mq_send q.fd (C.CString m) m.length p]) rb m p []
    (by simp [hempty, enqueue]) hfd hcap h31 hp32
  refine ⟨rfl, rfl, C.CString_take m, ?_, ?_⟩
  · rw [hrecv]
  · rw [hrecv]
    exact Mem.load_store mem rb.buf m

/-- A witness of C1 as amended: `"ping"` at priority `7` through `testQueue`. -/
theorem c1_send_receive_roundtrip_witness :
    testQueue.valid ∧ ping.length ≤ testQueue.msgsize ∧
    testQueue.msgsize ≤ testBuffer.size ∧
    (mq_send linuxQueue testQueue.fd ping 7 testWorld).1 = none ∧
    (mq_receive linuxQueue testQueue.fd testBuffer
      (mq_send linuxQueue testQueue.fd ping 7 testWorld).2).1 = some (ping, 7, none) :=
  have h := c1_send_receive_roundtrip testQueue (fun _ => 0) [] testBuffer ping 7
    (by decide) rfl (by decide) (by decide) (by decide) (by decide)
  ⟨by decide, by decide, by decide, h.1, h.2.2.2.1⟩

/-- C1 as stated fails: `"ping"` sent with priority `2^32` on `testQueue` is
accepted with a nil error, and the receive returns it with priority `0`. -/
theorem c1_roundtrip_priority_counterexample :
    (mq_send linuxQueue 3 ping 4294967296 testWorld).1 = none ∧
    (mq_receive linuxQueue 3 testBuffer
      (mq_send linuxQueue 3 ping 4294967296 testWorld).2).1 = some (ping, 0, none) ∧
    (mq_receive linuxQueue 3 testBuffer
      (mq_send linuxQueue 3 ping 4294967296 testWorld).2).1 ≠
      some (ping, 4294967296, none) := by
  decide

/-! ## C2: deadline conversion -/

theorem timeToTimespec_eq (t : Time) (ht : t.inRange) :
    timeToTimespec t =
      { tv_sec := t.unixNano / 1000000000, tv_nsec := t.unixNano % 1000000000 } := by
  have h0 : 0 ≤ t.unixNano % 1000000000 := Int.emod_nonneg _ (by norm_num)
  have h1 : t.unixNano % 1000000000 < 1000000000 := Int.emod_lt_of_pos _ (by norm_num)
  have hrem : goRem (t.unixNano % 1000000000) 1000000000 = t.unixNano % 1000000000 := by
    unfold goRem
    rw [Int.tmod_eq_emod h0 (by norm_num)]
    exact Int.emod_eq_of_lt h0 h1
  have hfit : fitsInt64 (t.unixNano % 1000000000) := by
    unfold fitsInt64
    norm_num
    omega
  unfold timeToTimespec Time.Nanosecond
  rw [hrem, C.long_of_fits _ hfit, C.long_of_fits _ ht]
  rfl

/-- C2: for every instant `t` (its seconds a value of `int64`), also one in the
past or before the Unix epoch, `timeToTimespec(t)` has `0 <= tv_nsec < 10^9`
and `tv_sec * 10^9 + tv_nsec` equal to the nanoseconds from the epoch to `t`;
it is a function of `t` alone, and `mq_timedsend` and `mq_timedreceive` hand
exactly this value to the native call, whatever the state of the world. -/
theorem c2_timeToTimespec_faithful (t : Time) (ht : t.inRange) :
    0 ≤ (timeToTimespec t).tv_nsec ∧
    (timeToTimespec t).tv_nsec < 1000000000 ∧
    (timeToTimespec t).tv_sec * 1000000000 + (timeToTimespec t).tv_nsec = t.unixNano ∧
    (∀ (σ : Type) (N : Native σ) (h : Int) (data : List Byte) (prio : Nat) (w : World σ),
      (mq_timedsend N h data prio t w).2.trace =
        w.trace ++ [Call.mq_timedsend (C.int h) (C.CString data) (C.size_t data.length)
          (C.uint prio) (timeToTimespec t)]) ∧
    (∀ (σ : Type) (N : Native σ) (h : Int) (rb : receiveBuffer) (w : World σ),
      (mq_timedreceive N h rb t w).2.trace =
        w.trace ++ [Call.mq_timedreceive (C.int h) rb.buf rb.size (timeToTimespec t)]) := by
  refine ⟨?_, ?_, ?_, ?_, ?_⟩
  · rw [timeToTimespec_eq t ht]
    exact Int.emod_nonneg _ (by norm_num)
  · rw [timeToTimespec_eq t ht]
    exact Int.emod_lt_of_pos _ (by norm_num)
  · rw [timeToTimespec_eq t ht]
    show t.unixNano / 1000000000 * 1000000000 + t.unixNano % 1000000000 = t.unixNano
    exact Int.ediv_add_emod' t.unixNano 1000000000
  · intro σ N h data prio w
    unfold mq_timedsend invoke
    dsimp only
    split <;> rfl
  · intro σ N h rb w
    unfold mq_timedreceive invoke
    dsimp only
    split <;> rfl

/-- A witness of C2: half a second before the Unix epoch is `(-1, 500000000)`. -/
theorem c2_timeToTimespec_faithful_witness :
    Time.inRange { unixNano := -500000000 } ∧
    timeToTimespec { unixNano := -500000000 } = { tv_sec := -1, tv_nsec := 500000000 } ∧
    (timeToTimespec { unixNano := -500000000 }).tv_sec * 1000000000 +
      (timeToTimespec { unixNano := -500000000 }).tv_nsec = -500000000 :=
  ⟨by decide, by decide,
   (c2_timeToTimespec_faithful { unixNano := -500000000 } (by decide)).2.2.1⟩

/-! ## C3: the sentinel and the error -/

theorem SentinelMapped_of_ite (r : Reply) :
    SentinelMapped r (if r.rv = -1 then cgoErr r.errno else none) := by
  unfold SentinelMapped cgoErr
  refine ⟨?_, ?_, ?_⟩
  · intro h1 h2
    simp [h1, h2]
  · intro h1 h2
    simp [h1, h2]
  · intro h1
    simp [h1]

theorem SentinelMappedRecv_of_ite (r : Reply) (mem : Mem) (p : Nat) :
    SentinelMappedRecv r
      (if r.rv = -1 then some ([], 0, cgoErr r.errno)
       else (C.GoBytes mem p (C.int r.rv)).map
         (fun bytes => (bytes, goUint (C.uint r.prio), none))) := by
  unfold SentinelMappedRecv cgoErr
  refine ⟨?_, ?_, ?_⟩
  · intro h1 h2
    simp [h1, h2]
  · intro h1 h2
    simp [h1, h2]
  · intro h1 h2
    simp [h1, C.GoBytes, Int.not_lt.mpr h2]

/-- C3 (as amended): for each wrapper operation and every answer of its native
call, if the call returns the sentinel `-1` with a nonzero `errno` the error
returned is `syscall.Errno(errno)`, hence non-nil; if it returns `-1` with
`errno` zero the error returned is nil; and if it does not return `-1` the
error returned is nil (for the two receive operations, which then call
`C.GoBytes`, whenever the returned size is a non-negative C `int`). -/
theorem c3_sentinel_error_mapping (σ : Type) (N : Native σ) (w : World σ) :
    (∀ name oflag mode attr,
      SentinelMapped
        (answer N (.mq_open4 (C.CString name) (C.int oflag) (C.int mode)
          (mq_open.cAttr attr)) w)
        (mq_open N name oflag mode attr w).1.2) ∧
    (∀ h data prio,
      SentinelMapped
        (answer N (.mq_send (C.int h) (C.CString data) (C.size_t data.length)
          (C.uint prio)) w)
        (mq_send N h data prio w).1) ∧
    (∀ h data prio t,
      SentinelMapped
        (answer N (.mq_timedsend (C.int h) (C.CString data) (C.size_t data.length)
          (C.uint prio) (timeToTimespec t)) w)
        (mq_timedsend N h data prio t w).1) ∧
    (∀ h (rb : receiveBuffer),
      SentinelMappedRecv
        (answer N (.mq_receive (C.int h) rb.buf rb.size) w)
        (mq_receive N h rb w).1) ∧
    (∀ h (rb : receiveBuffer) t,
      SentinelMappedRecv
        (answer N (.mq_timedreceive (C.int h) rb.buf rb.size (timeToTimespec t)) w)
        (mq_timedreceive N h rb t w).1) ∧
    (∀ h sigNo,
      SentinelMapped
        (answer N (.mq_notify (C.int h)
          { sigev_notify := SIGEV_SIGNAL, sigev_signo := C.int sigNo }) w)
        (mq_notify N h sigNo w).1) ∧
    (∀ h,
      SentinelMapped (answer N (.mq_close (C.int h)) w) (mq_close N h w).1) ∧
    (∀ name,
      SentinelMapped (answer N (.mq_unlink (C.CString name)) w) (mq_unlink N name w).1) ∧
    (∀ h,
      SentinelMapped (answer N (.mq_getattr (C.int h)) w) (mq_getattr N h w).1.2) := by
  refine ⟨?_, ?_, ?_, ?_, ?_, ?_, ?_, ?_, ?_⟩
  · intro name oflag mode attr
    have h := SentinelMapped_of_ite (answer N (.mq_open4 (C.CString name) (C.int oflag)
      (C.int mode) (mq_open.cAttr attr)) w)
    unfold mq_open invoke
    unfold answer at h ⊢
    dsimp only
    split <;> simp_all
  · intro h data prio
    have h := SentinelMapped_of_ite (answer N (.mq_send (C.int h) (C.CString data)
      (C.size_t data.length) (C.uint prio)) w)
    unfold mq_send invoke
    unfold answer at h ⊢
    dsimp only
    split <;> simp_all
  · intro h data prio t
    have h := SentinelMapped_of_ite (answer N (.mq_timedsend (C.int h) (C.CString data)
      (C.size_t data.length) (C.uint prio) (timeToTimespec t)) w)
    unfold mq_timedsend invoke
    unfold answer at h ⊢
    dsimp only
    split <;> simp_all
  · intro h rb
    have h := SentinelMappedRecv_of_ite (answer N (.mq_receive (C.int h) rb.buf rb.size) w)
      (w.mem.store rb.buf (answer N (.mq_receive (C.int h) rb.buf rb.size) w).data) rb.buf
    unfold mq_receive invoke
    unfold answer at h ⊢
    dsimp only
    split <;> simp_all
  · intro h rb t
    have h := SentinelMappedRecv_of_ite
      (answer N (.mq_timedreceive (C.int h) rb.buf rb.size (timeToTimespec t)) w)
      (w.mem.store rb.buf
        (answer N (.mq_timedreceive (C.int h) rb.buf rb.size (timeToTimespec t)) w).data)
      rb.buf
    unfold mq_timedreceive invoke
    unfold answer at h ⊢
    dsimp only
    split <;> simp_all
  · intro h sigNo
    have h := SentinelMapped_of_ite (answer N (.mq_notify (C.int h)
      { sigev_notify := SIGEV_SIGNAL, sigev_signo := C.int sigNo }) w)
    unfold mq_notify invoke
    unfold answer at h ⊢
    dsimp only
    split <;> simp_all
  · intro h
    have h := SentinelMapped_of_ite (answer N (.mq_close (C.int h)) w)
    unfold mq_close invoke
    unfold answer at h ⊢
    dsimp only
    split <;> simp_all
  · intro name
    have h := SentinelMapped_of_ite (answer N (.mq_unlink (C.CString name)) w)
    unfold mq_unlink invoke
    unfold answer at h ⊢
    dsimp only
    split <;> simp_all
  · intro h
    have h := SentinelMapped_of_ite (answer N (.mq_getattr (C.int h)) w)
    unfold mq_getattr invoke
    unfold answer at h ⊢
    dsimp only
    split <;> simp_all

/-- A witness of C3 as amended: `mq_close` and `mq_receive` against a native
side that fails with `EAGAIN`, and `mq_close` against one that succeeds. -/
theorem c3_sentinel_error_mapping_witness :
    (mq_close (constNative (-1) EAGAIN) 3 emptyWorld).1 = some (GoError.Errno EAGAIN) ∧
    (mq_receive (constNative (-1) EAGAIN) 3 testBuffer emptyWorld).1 =
      some ([], 0, some (GoError.Errno EAGAIN)) ∧
    (mq_close (constNative 0 0) 3 emptyWorld).1 = none :=
  ⟨((c3_sentinel_error_mapping Unit (constNative (-1) EAGAIN) emptyWorld).2.2.2.2.2.2.1
      3).1 (by decide) (by decide),
   ((c3_sentinel_error_mapping Unit (constNative (-1) EAGAIN) emptyWorld).2.2.2.1
      3 testBuffer).1 (by decide) (by decide),
   ((c3_sentinel_error_mapping Unit (constNative 0 0) emptyWorld).2.2.2.2.2.2.1
      3).2.2 (by decide)⟩

/-- C3 as stated fails: the native `mq_close` returns the sentinel `-1` with
`errno` zero, and `mq_close` returns a nil error. -/
theorem c3_sentinel_without_errno_counterexample :
    (answer (constNative (-1) 0) (Call.mq_close (C.int 3)) emptyWorld).rv = -1 ∧
    (answer (constNative (-1) 0) (Call.mq_close (C.int 3)) emptyWorld).errno = 0 ∧
    (mq_close (constNative (-1) 0) 3 emptyWorld).1 = none := by
  decide

/-! ## C4: the handle of a failed open -/

/-- C4 (as amended): when the native open returns the sentinel `-1`, `mq_open`
returns the handle `0` with the error cgo built, non-nil when `errno` is not
zero; a successful `mq_open` returns the descriptor the native open gave with a
nil error.  So the handle of a failed open differs from the handle of a
successful one exactly when that descriptor is not `0`. -/
theorem c4_failed_open_handle (σ τ : Type) (N : Native σ) (w : World σ)
    (N' : Native τ) (w' : World τ) (name name' : List Byte) (oflag mode oflag' mode' : Int)
    (attr attr' : Option MessageQueueAttribute)
    (hfail : (answer N (.mq_open4 (C.CString name) (C.int oflag) (C.int mode)
      (mq_open.cAttr attr)) w).rv = -1)
    (hok : (answer N' (.mq_open4 (C.CString name') (C.int oflag') (C.int mode')
      (mq_open.cAttr attr')) w').rv ≠ -1)
    (hfd : fitsInt32 (answer N' (.mq_open4 (C.CString name') (C.int oflag') (C.int mode')
      (mq_open.cAttr attr')) w').rv) :
    (mq_open N name oflag mode attr w).1 =
      (0, cgoErr (answer N (.mq_open4 (C.CString name) (C.int oflag) (C.int mode)
        (mq_open.cAttr attr)) w).errno) ∧
    (mq_open N' name' oflag' mode' attr' w').1 =
      ((answer N' (.mq_open4 (C.CString name') (C.int oflag') (C.int mode')
        (mq_open.cAttr attr')) w').rv, none) ∧
    ((mq_open N name oflag mode attr w).1.1 ≠ (mq_open N' name' oflag' mode' attr' w').1.1 ↔
      (answer N' (.mq_open4 (C.CString name') (C.int oflag') (C.int mode')
        (mq_open.cAttr attr')) w').rv ≠ 0) ∧
    ((answer N (.mq_open4 (C.CString name) (C.int oflag) (C.int mode)
        (mq_open.cAttr attr)) w).errno ≠ 0 →
      (mq_open N name oflag mode attr w).1.2 ≠ none) := by
  have h64 : fitsInt64 (answer N' (.mq_open4 (C.CString name') (C.int oflag') (C.int mode')
      (mq_open.cAttr attr')) w').rv := by
    unfold fitsInt32 at hfd
    unfold fitsInt64
    norm_num at hfd ⊢
    omega
  have e1 : (mq_open N name oflag mode attr w).1 =
      (0, cgoErr (answer N (.mq_open4 (C.CString name) (C.int oflag) (C.int mode)
        (mq_open.cAttr attr)) w).errno) := by
    unfold answer at hfail ⊢
    simp [mq_open, invoke, hfail]
  have e2 : (mq_open N' name' oflag' mode' attr' w').1 =
      ((answer N' (.mq_open4 (C.CString name') (C.int oflag') (C.int mode')
        (mq_open.cAttr attr')) w').rv, none) := by
    have hg := goInt_of_fits _ h64
    unfold answer at hok hg ⊢
    simp [mq_open, invoke, hok, hg]
  refine ⟨e1, e2, ?_, ?_⟩
  · rw [e1, e2]
    exact ⟨fun h => fun h0 => h h0.symm, fun h => fun h0 => h h0.symm⟩
  · intro he
    rw [e1]
    simp [cgoErr, he]

/-- A witness of C4 as amended: an open that fails with `ENOENT` next to an
open that the reference native side answers with descriptor `0`. -/
theorem c4_failed_open_handle_witness :
    (mq_open (constNative (-1) ENOENT) qName 0 0 none emptyWorld).1 =
      (0, some (GoError.Errno ENOENT)) ∧
    (mq_open (constNative 7 0) qName 0 0 none emptyWorld).1 = (7, none) :=
  have h := c4_failed_open_handle Unit Unit (constNative (-1) ENOENT) emptyWorld
    (constNative 7 0) emptyWorld qName qName 0 0 0 0 none none
    (by decide) (by decide) (by decide)
  ⟨h.1, h.2.1⟩

/-- C4 as stated fails: an open that fails with `ENOENT` returns the handle `0`,
a successful open whose descriptor is `0` returns the handle `0` as well, and
a send on the handle `0` reaches a live queue open on descriptor `0`. -/
theorem c4_failed_open_handle_counterexample :
    (answer (constNative (-1) ENOENT)
      (Call.mq_open4 (C.CString qName) (C.int 0) (C.int 0) (mq_open.cAttr none))
      emptyWorld).rv = -1 ∧
    (mq_open (constNative (-1) ENOENT) qName 0 0 none emptyWorld).1 =
      (0, some (GoError.Errno ENOENT)) ∧
    (mq_open (constNative 0 0) qName 0 0 none emptyWorld).1 = (0, none) ∧
    (mq_send linuxQueue
      (mq_open (constNative (-1) ENOENT) qName 0 0 none emptyWorld).1.1 ping 0
      { kernel := { testQueue with fd := 0 }, mem := fun _ => 0, trace := [] }).1 = none := by
  decide

/-! ## C5: attribute round trip -/

theorem mq_open_trace {σ : Type} (N : Native σ) (name : List Byte) (oflag mode : Int)
    (attr : Option MessageQueueAttribute) (w : World σ) :
    (mq_open N name oflag mode attr w).2.trace =
      w.trace ++ [Call.mq_open4 (C.CString name) (C.int oflag) (C.int mode)
        (mq_open.cAttr attr)] := by
  unfold mq_open invoke
  dsimp only
  split <;> rfl

/-- C5: for every `MessageQueueAttribute` `a` whose fields fit C `long`, the
structure `mq_open` builds from `a` and hands to the native open carries the
fields of `a` unchanged, and `mq_getattr`, converting that structure back,
gives `a` again, so the same `Flags`, `MaxMsg` and `MsgSize`; and whenever the
structure the native `mq_getattr` stores carries the `mq_maxmsg` and
`mq_msgsize` that `mq_open` handed over, `mq_getattr` reports the `MaxMsg` and
`MsgSize` of `a`. -/
theorem c5_attribute_roundtrip (a : MessageQueueAttribute)
    (hF : fitsInt64 a.Flags) (hM : fitsInt64 a.MaxMsg) (hS : fitsInt64 a.MsgSize)
    (hC : fitsInt64 a.MsgCnt) :
    mq_open.cAttr (some a) =
      some { mq_flags := a.Flags, mq_maxmsg := a.MaxMsg, mq_msgsize := a.MsgSize,
             mq_curmsgs := a.MsgCnt } ∧
    (∀ (σ : Type) (N : Native σ) (name : List Byte) (oflag mode : Int) (w : World σ),
      (mq_open N name oflag mode (some a) w).2.trace =
        w.trace ++ [Call.mq_open4 (C.CString name) (C.int oflag) (C.int mode)
          (some { mq_flags := a.Flags, mq_maxmsg := a.MaxMsg, mq_msgsize := a.MsgSize,
                  mq_curmsgs := a.MsgCnt })]) ∧
    (∀ (σ : Type) (N : Native σ) (h : Int) (w : World σ),
      (answer N (.mq_getattr (C.int h)) w).rv ≠ -1 →
      (answer N (.mq_getattr (C.int h)) w).attr =
        { mq_flags := a.Flags, mq_maxmsg := a.MaxMsg, mq_msgsize := a.MsgSize,
          mq_curmsgs := a.MsgCnt } →
      (mq_getattr N h w).1 = (some a, none)) ∧
    (∀ (σ : Type) (N : Native σ) (h : Int) (w : World σ),
      (answer N (.mq_getattr (C.int h)) w).rv ≠ -1 →
      (answer N (.mq_getattr (C.int h)) w).attr.mq_maxmsg = a.MaxMsg →
      (answer N (.mq_getattr (C.int h)) w).attr.mq_msgsize = a.MsgSize →
      (mq_getattr N h w).1.2 = none ∧
      (mq_getattr N h w).1.1.map MessageQueueAttribute.MaxMsg = some a.MaxMsg ∧
      (mq_getattr N h w).1.1.map MessageQueueAttribute.MsgSize = some a.MsgSize) := by
  have hc : mq_open.cAttr (some a) =
      some { mq_flags := a.Flags, mq_maxmsg := a.MaxMsg, mq_msgsize := a.MsgSize,
             mq_curmsgs := a.MsgCnt } := by
    simp [mq_open.cAttr, C.long_of_fits _ hF, C.long_of_fits _ hM, C.long_of_fits _ hS,
      C.long_of_fits _ hC]
  refine ⟨hc, ?_, ?_, ?_⟩
  · intro σ N name oflag mode w
    rw [mq_open_trace, hc]
  · intro σ N h w hrv hattr
    unfold answer at hrv hattr
    simp [mq_getattr, invoke, hrv, hattr, goInt_of_fits _ hF, goInt_of_fits _ hM,
      goInt_of_fits _ hS, goInt_of_fits _ hC]
  · intro σ N h w hrv hmax hsize
    unfold answer at hrv hmax hsize
    simp [mq_getattr, invoke, hrv, hmax, hsize, goInt_of_fits _ hM, goInt_of_fits _ hS]

/-- A witness of C5: a queue configured with `maxMessages = 10` and
`maxMessageSize = 128`. -/
theorem c5_attribute_roundtrip_witness :
    mq_open.cAttr (some testAttr) = some testCAttr ∧
    (mq_getattr (okNative 0 testCAttr) 3 emptyWorld).1 = (some testAttr, none) :=
  have h := c5_attribute_roundtrip testAttr (by decide) (by decide) (by decide) (by decide)
  ⟨h.1, h.2.2.1 Unit (okNative 0 testCAttr) 3 emptyWorld (by decide) rfl⟩

/-! ## C6: the creation attributes handed to the kernel -/

/-- C6 (as amended): for every name, flags and mode and every two attribute
values `a1`, `a2` that agree on `Flags`, `MaxMsg` and `MsgSize`, the creation
attributes `mq_open` hands the kernel are non-null and agree on `mq_flags`,
`mq_maxmsg` and `mq_msgsize`, while `mq_curmsgs` carries the `MsgCnt` of each;
so `mq_open` produces the same result whenever the native open does not read
`mq_curmsgs`.  When no attributes are supplied it hands the kernel a null
attribute pointer. -/
theorem c6_creation_attributes (a1 a2 : MessageQueueAttribute)
    (hF : a1.Flags = a2.Flags) (hM : a1.MaxMsg = a2.MaxMsg) (hS : a1.MsgSize = a2.MsgSize) :
    (mq_open.cAttr (some a1)).map mq_attr.mq_flags =
      (mq_open.cAttr (some a2)).map mq_attr.mq_flags ∧
    (mq_open.cAttr (some a1)).map mq_attr.mq_maxmsg =
      (mq_open.cAttr (some a2)).map mq_attr.mq_maxmsg ∧
    (mq_open.cAttr (some a1)).map mq_attr.mq_msgsize =
      (mq_open.cAttr (some a2)).map mq_attr.mq_msgsize ∧
    (mq_open.cAttr (some a1)).map mq_attr.mq_curmsgs = some (C.long a1.MsgCnt) ∧
    (mq_open.cAttr (some a2)).map mq_attr.mq_curmsgs = some (C.long a2.MsgCnt) ∧
    (∀ (σ : Type) (N : Native σ) (name : List Byte) (oflag mode : Int) (w : World σ),
      (mq_open N name oflag mode (some a1) w).2.trace =
        w.trace ++ [Call.mq_open4 (C.CString name) (C.int oflag) (C.int mode)
          (mq_open.cAttr (some a1))] ∧
      (mq_open N name oflag mode (some a2) w).2.trace =
        w.trace ++ [Call.mq_open4 (C.CString name) (C.int oflag) (C.int mode)
          (mq_open.cAttr (some a2))]) ∧
    (∀ (σ : Type) (N : Native σ) (name : List Byte) (oflag mode : Int) (w : World σ),
      IgnoresCurmsgs N →
      (mq_open N name oflag mode (some a1) w).1 = (mq_open N name oflag mode (some a2) w).1) ∧
    (∀ (σ : Type) (N : Native σ) (name : List Byte) (oflag mode : Int) (w : World σ),
      (mq_open N name oflag mode none w).2.trace =
        w.trace ++ [Call.mq_open4 (C.CString name) (C.int oflag) (C.int mode) none]) := by
  refine ⟨?_, ?_, ?_, rfl, rfl, ?_, ?_, ?_⟩
  · simp [mq_open.cAttr, hF]
  · simp [mq_open.cAttr, hM]
  · simp [mq_open.cAttr, hS]
  · intro σ N name oflag mode w
    exact ⟨mq_open_trace N name oflag mode (some a1) w,
      mq_open_trace N name oflag mode (some a2) w⟩
  · intro σ N name oflag mode w hN
    have h := hN (C.CString name) (C.int oflag) (C.int mode)
      { mq_flags := C.long a1.Flags, mq_maxmsg := C.long a1.MaxMsg,
        mq_msgsize := C.long a1.MsgSize, mq_curmsgs := C.long a1.MsgCnt }
      { mq_flags := C.long a2.Flags, mq_maxmsg := C.long a2.MaxMsg,
        mq_msgsize := C.long a2.MsgSize, mq_curmsgs := C.long a2.MsgCnt }
      w.kernel (by simp [hF]) (by simp [hM]) (by simp [hS])
    simp only [mq_open, invoke, mq_open.cAttr, h]
    split <;> rfl
  · intro σ N name oflag mode w
    exact mq_open_trace N name oflag mode none w

/-- A witness of C6 as amended: two attribute values for `maxMessages = 10`,
`maxMessageSize = 128` that differ in `MsgCnt`. -/
theorem c6_creation_attributes_witness :
    (mq_open (constNative 3 0) qName 0 0 (some testAttr) emptyWorld).1 =
    (mq_open (constNative 3 0) qName 0 0 (some testAttrCnt) emptyWorld).1 :=
  (c6_creation_attributes testAttr testAttrCnt rfl rfl rfl).2.2.2.2.2.2.1
    Unit (constNative 3 0) qName 0 0 emptyWorld (fun _ _ _ _ _ _ _ _ _ => rfl)

/-- C6 as stated fails: two attribute values that differ only in `MsgCnt` make
`mq_open` hand the kernel two different creation attributes. -/
theorem c6_msgcnt_passed_counterexample :
    testAttr.Flags = testAttrCnt.Flags ∧ testAttr.MaxMsg = testAttrCnt.MaxMsg ∧
    testAttr.MsgSize = testAttrCnt.MsgSize ∧
    mq_open.cAttr (some testAttr) ≠ mq_open.cAttr (some testAttrCnt) ∧
    (mq_open (constNative 3 0) qName 0 0 (some testAttr) emptyWorld).2.trace =
      [Call.mq_open4 (C.CString qName) 0 0
        (some { mq_flags := 0, mq_maxmsg := 10, mq_msgsize := 128, mq_curmsgs := 0 })] ∧
    (mq_open (constNative 3 0) qName 0 0 (some testAttrCnt) emptyWorld).2.trace =
      [Call.mq_open4 (C.CString qName) 0 0
        (some { mq_flags := 0, mq_maxmsg := 10, mq_msgsize := 128, mq_curmsgs := 5 })] := by
  decide

/-! ## C7: receive-buffer allocation -/

theorem C.malloc_ne_some_zero {σ : Type} (N : Native σ) (n : Nat) (w : World σ) :
    (C.malloc N n w).1 ≠ some 0 := by
  unfold C.malloc
  dsimp only
  generalize (if (invoke N (.malloc n) w).1.ptr = 0 ∧ n = 0
    then invoke N (.malloc 1) (invoke N (.malloc n) w).2
    else invoke N (.malloc n) w) = r1
  by_cases h : r1.1.ptr = 0
  · simp [h]
  · simp [h]

/-- Whatever the native side answers, `newReceiveBuffer` never returns
`MemoryAllocationError`: the branch `if buf == nil` is not reachable. -/
theorem newReceiveBuffer_error_unreachable {σ : Type} (N : Native σ) (bufSize : Int)
    (w : World σ) :
    (newReceiveBuffer N bufSize w).1 ≠ some (none, some GoError.MemoryAllocationError) := by
  have h0 := C.malloc_ne_some_zero N (C.size_t bufSize) w
  unfold newReceiveBuffer
  dsimp only
  split
  · simp
  · rename_i buf hbuf
    have hne : buf ≠ 0 := by
      intro hz
      rw [hz] at hbuf
      exact h0 hbuf
    simp [hne]

/-- A null block from the native `malloc` for a request of `n > 0` bytes aborts
the process: `newReceiveBuffer` does not return. -/
theorem newReceiveBuffer_null_aborts {σ : Type} (N : Native σ) (w : World σ) (n : Int)
    (h0 : 0 < n) (hn : fitsInt64 n)
    (hnull : (answer N (.malloc n.toNat) w).ptr = 0) :
    (newReceiveBuffer N n w).1 = none ∧
    (newReceiveBuffer N n w).2.trace = w.trace ++ [Call.malloc n.toNat] := by
  have hsz : C.size_t n = n.toNat := by
    unfold fitsInt64 at hn
    unfold C.size_t wrapUnsigned
    norm_num at hn ⊢
    omega
  have hpos : n.toNat ≠ 0 := by omega
  unfold answer at hnull
  simp [newReceiveBuffer, C.malloc, invoke, hsz, hpos, hnull]

/-- A non-null block from the native `malloc` for a request of `n >= 0` bytes:
`newReceiveBuffer` issues exactly the call `malloc(n)` and returns a nil error
and a buffer whose recorded capacity is `n` and whose storage is that block. -/
theorem newReceiveBuffer_ok {σ : Type} (N : Native σ) (w : World σ) (n : Int)
    (h0 : 0 ≤ n) (hn : fitsInt64 n)
    (hblock : (answer N (.malloc n.toNat) w).ptr ≠ 0) :
    (newReceiveBuffer N n w).1 =
      some (some { buf := (answer N (.malloc n.toNat) w).ptr, size := n.toNat }, none) ∧
    (newReceiveBuffer N n w).2.trace = w.trace ++ [Call.malloc n.toNat] := by
  have hsz : C.size_t n = n.toNat := by
    unfold fitsInt64 at hn
    unfold C.size_t wrapUnsigned
    norm_num at hn ⊢
    omega
  unfold answer at hblock ⊢
  simp [newReceiveBuffer, C.malloc, invoke, hsz, hblock]

/-- C7 (the code at the failing input): `newReceiveBuffer(1 << 62)` against an
allocator that cannot satisfy the request.  The native `malloc` is asked for
exactly `2^62` bytes and returns a null block; `newReceiveBuffer` then does not
return at all, the process being aborted inside `C.malloc`, where the claim has
it return `MemoryAllocationError` and no buffer. -/
theorem c7_allocation_failure_aborts :
    (answer (constNative 0 ENOMEM) (Call.malloc 4611686018427387904) emptyWorld).ptr = 0 ∧
    (newReceiveBuffer (constNative 0 ENOMEM) 4611686018427387904 emptyWorld).2.trace =
      [Call.malloc 4611686018427387904] ∧
    (newReceiveBuffer (constNative 0 ENOMEM) 4611686018427387904 emptyWorld).1 = none ∧
    (newReceiveBuffer (constNative 0 ENOMEM) 4611686018427387904 emptyWorld).1 ≠
      some (none, some GoError.MemoryAllocationError) := by
  decide

/-! ## C8: releasing a receive buffer -/

theorem freeTimes_trace {σ : Type} (N : Native σ) (rb : receiveBuffer) (k : Nat)
    (w : World σ) :
    (freeTimes N rb k w).trace = w.trace ++ List.replicate k (Call.free rb.buf) := by
  induction k generalizing w with
  | zero => simp [freeTimes]
  | succ k ih =>
    rw [freeTimes, ih]
    simp [receiveBuffer.free, invoke, List.replicate_succ]

/-- C8 (as amended): every call of `free()` on a receive buffer hands its block
to the native `free` once, unguarded: `k` calls issue `k` native calls
`free(buf)` and nothing else, so the block is released exactly once when
`free()` is called exactly once. -/
theorem c8_free_once_per_call (σ : Type) (N : Native σ) (rb : receiveBuffer) (k : Nat)
    (w : World σ) :
    (freeTimes N rb k w).trace = w.trace ++ List.replicate k (Call.free rb.buf) ∧
    (freeTimes N rb k w).trace.count (Call.free rb.buf) =
      w.trace.count (Call.free rb.buf) + k ∧
    ((freeTimes N rb k w).trace.count (Call.free rb.buf) =
      w.trace.count (Call.free rb.buf) + 1 ↔ k = 1) := by
  have ht := freeTimes_trace N rb k w
  have hc : (freeTimes N rb k w).trace.count (Call.free rb.buf) =
      w.trace.count (Call.free rb.buf) + k := by
    rw [ht, List.count_append, List.count_replicate_self]
  refine ⟨ht, hc, ?_⟩
  rw [hc]
  omega

/-- C8 as stated fails: a receive buffer is allocated and `free()` is called on
it twice; the native `free` is handed the block `4096` twice. -/
theorem c8_double_free_counterexample :
    (newReceiveBuffer (okNative 4096 ⟨0, 0, 0, 0⟩) 128 emptyWorld).1 =
      some (some testBuffer, none) ∧
    (testBuffer.free (okNative 4096 ⟨0, 0, 0, 0⟩)
      (testBuffer.free (okNative 4096 ⟨0, 0, 0, 0⟩)
        (newReceiveBuffer (okNative 4096 ⟨0, 0, 0, 0⟩) 128 emptyWorld).2)).trace =
      [Call.malloc 128, Call.free 4096, Call.free 4096] := by
  decide

/-! ## C9: one native call per operation -/

/-- C9: every invocation of a wrapper operation appends exactly one call to the
trace of native calls, the queue call of its own kind, whatever the native side
answers; so a failed call is not repeated, and `mq_close` issues no
`mq_unlink`. -/
theorem c9_one_native_call (σ : Type) (N : Native σ) (w : World σ) :
    (∀ name oflag mode attr,
      (mq_open N name oflag mode attr w).2.trace =
        w.trace ++ [Call.mq_open4 (C.CString name) (C.int oflag) (C.int mode)
          (mq_open.cAttr attr)]) ∧
    (∀ h data prio,
      (mq_send N h data prio w).2.trace =
        w.trace ++ [Call.mq_send (C.int h) (C.CString data) (C.size_t data.length)
          (C.uint prio)]) ∧
    (∀ h data prio t,
      (mq_timedsend N h data prio t w).2.trace =
        w.trace ++ [Call.mq_timedsend (C.int h) (C.CString data) (C.size_t data.length)
          (C.uint prio) (timeToTimespec t)]) ∧
    (∀ h (rb : receiveBuffer),
      (mq_receive N h rb w).2.trace =
        w.trace ++ [Call.mq_receive (C.int h) rb.buf rb.size]) ∧
    (∀ h (rb : receiveBuffer) t,
      (mq_timedreceive N h rb t w).2.trace =
        w.trace ++ [Call.mq_timedreceive (C.int h) rb.buf rb.size (timeToTimespec t)]) ∧
    (∀ h sigNo,
      (mq_notify N h sigNo w).2.trace =
        w.trace ++ [Call.mq_notify (C.int h)
          { sigev_notify := SIGEV_SIGNAL, sigev_signo := C.int sigNo }]) ∧
    (∀ h, (mq_close N h w).2.trace = w.trace ++ [Call.mq_close (C.int h)]) ∧
    (∀ name, (mq_unlink N name w).2.trace = w.trace ++ [Call.mq_unlink (C.CString name)]) ∧
    (∀ h, (mq_getattr N h w).2.trace = w.trace ++ [Call.mq_getattr (C.int h)]) ∧
    (∀ h name, Call.mq_unlink name ∈ (mq_close N h w).2.trace ↔
      Call.mq_unlink name ∈ w.trace) := by
  have hclose : ∀ h, (mq_close N h w).2.trace = w.trace ++ [Call.mq_close (C.int h)] := by
    intro h
    unfold mq_close invoke
    dsimp only
    split <;> rfl
  refine ⟨?_, ?_, ?_, ?_, ?_, ?_, hclose, ?_, ?_, ?_⟩
  · intro name oflag mode attr
    exact mq_open_trace N name oflag mode attr w
  · intro h data prio
    unfold mq_send invoke
    dsimp only
    split <;> rfl
  · intro h data prio t
    unfold mq_timedsend invoke
    dsimp only
    split <;> rfl
  · intro h rb
    unfold mq_receive invoke
    dsimp only
    split <;> rfl
  · intro h rb t
    unfold mq_timedreceive invoke
    dsimp only
    split <;> rfl
  · intro h sigNo
    unfold mq_notify invoke
    dsimp only
    split <;> rfl
  · intro name
    unfold mq_unlink invoke
    dsimp only
    split <;> rfl
  · intro h
    unfold mq_getattr invoke
    dsimp only
    split <;> rfl
  · intro h name
    rw [hclose h]
    simp

/-! ## C10: priority conversion -/

/-- C10: for every priority `p` given to `mq_send` or `mq_timedsend`, the
priority handed to the native call is `p mod 2^32`, which equals `p` exactly
when `p < 2^32`; and whenever `mq_receive` or `mq_timedreceive` returns a
message, its priority is the value the native call stored, an
`unsigned int`. -/
theorem c10_priority_conversion (σ : Type) (N : Native σ) (w : World σ) (p : Nat) :
    (∀ h data,
      (mq_send N h data p w).2.trace =
        w.trace ++ [Call.mq_send (C.int h) (C.CString data) (C.size_t data.length)
          (p % 2 ^ 32)]) ∧
    (∀ h data t,
      (mq_timedsend N h data p t w).2.trace =
        w.trace ++ [Call.mq_timedsend (C.int h) (C.CString data) (C.size_t data.length)
          (p % 2 ^ 32) (timeToTimespec t)]) ∧
    (C.uint p = p ↔ p < 2 ^ 32) ∧
    (∀ h (rb : receiveBuffer),
      (answer N (.mq_receive (C.int h) rb.buf rb.size) w).rv ≠ -1 →
      0 ≤ C.int (answer N (.mq_receive (C.int h) rb.buf rb.size) w).rv →
      (answer N (.mq_receive (C.int h) rb.buf rb.size) w).prio < 2 ^ 32 →
      (mq_receive N h rb w).1.map (fun x => x.2.1) =
        some (answer N (.mq_receive (C.int h) rb.buf rb.size) w).prio) ∧
    (∀ h (rb : receiveBuffer) t,
      (answer N (.mq_timedreceive (C.int h) rb.buf rb.size (timeToTimespec t)) w).rv ≠ -1 →
      0 ≤ C.int (answer N (.mq_timedreceive (C.int h) rb.buf rb.size
        (timeToTimespec t)) w).rv →
      (answer N (.mq_timedreceive (C.int h) rb.buf rb.size (timeToTimespec t)) w).prio
        < 2 ^ 32 →
      (mq_timedreceive N h rb t w).1.map (fun x => x.2.1) =
        some (answer N (.mq_timedreceive (C.int h) rb.buf rb.size
          (timeToTimespec t)) w).prio) := by
  refine ⟨?_, ?_, ?_, ?_, ?_⟩
  · intro h data
    unfold mq_send invoke
    dsimp only
    split <;> rfl
  · intro h data t
    unfold mq_timedsend invoke
    dsimp only
    split <;> rfl
  · unfold C.uint
    constructor
    · intro h
      rw [← h]
      exact Nat.mod_lt _ (by norm_num)
    · intro h
      exact Nat.mod_eq_of_lt h
  · intro h rb hrv hsz hp
    have hp64 : (answer N (.mq_receive (C.int h) rb.buf rb.size) w).prio < 2 ^ 64 :=
      lt_trans hp (by norm_num)
    have e1 := C.uint_of_lt _ hp
    have e2 := goUint_of_lt _ hp64
    unfold answer at hrv hsz e1 e2 ⊢
    simp [mq_receive, invoke, hrv, C.GoBytes, Int.not_lt.mpr hsz, e1, e2]
  · intro h rb t hrv hsz hp
    have hp64 : (answer N (.mq_timedreceive (C.int h) rb.buf rb.size
        (timeToTimespec t)) w).prio < 2 ^ 64 :=
      lt_trans hp (by norm_num)
    have e1 := C.uint_of_lt _ hp
    have e2 := goUint_of_lt _ hp64
    unfold answer at hrv hsz e1 e2 ⊢
    simp [mq_timedreceive, invoke, hrv, C.GoBytes, Int.not_lt.mpr hsz, e1, e2]

/-- A witness of C10: the priority `2^32 + 5` reaches the native `mq_send` as
`5`, and the priority `7` stored by the reference queue is returned as `7`. -/
theorem c10_priority_conversion_witness :
    (mq_send (constNative 0 0) 3 ping 4294967301 emptyWorld).2.trace =
      [Call.mq_send 3 (C.CString ping) 4 5] ∧
    (mq_receive linuxQueue 3 testBuffer
      { kernel := { testQueue with msgs := [(7, ping)] }, mem := fun _ => 0,
        trace := [] }).1.map (fun x => x.2.1) = some 7 :=
  ⟨(c10_priority_conversion Unit (constNative 0 0) emptyWorld 4294967301).1 3 ping,
   (c10_priority_conversion MQueue linuxQueue
      { kernel := { testQueue with msgs := [(7, ping)] }, mem := fun _ => 0, trace := [] }
      0).2.2.2.1 3 testBuffer (by decide) (by decide) (by decide)⟩

end PosixMq
